import Mathlib

/-!
Shallow embedding of `src/generator/env-file.ts` from the
openapi-mcp-generator repository, together with theorems checking the
natural-language specification of `generateEnvExample` and
`generateDotenvConfig` against the code.

The external env-var name resolver `getEnvVarName` (imported by the source
from `../utils/security.js`, outside this core) is modelled as an explicit
function parameter, matching the spec's treatment of it as a pure external
collaborator.
-/

/-- CLI options as consumed by `generateEnvExample` (`options?.withMcpcat`,
`options?.withOtel`). Only the two boolean toggles are read. -/
structure CliOptions where
  withMcpcat : Bool
  withOtel : Bool
deriving DecidableEq

/-- A value of the `securitySchemes` mapping: either a `$ref` reference
object, or a security-scheme definition with its `type`, optional `scheme`
subtype field, and optional `flows` object (of which only the key list, in
insertion order, is ever consumed by the generator). -/
inductive SecuritySchemeOrRef where
  | ref (target : String)
  | scheme (ty : String) (sub : Option String) (flows : Option (List String))
deriving DecidableEq

/-- `options?.withMcpcat` with optional chaining: `false` when options are
absent. -/
def optWithMcpcat (options : Option CliOptions) : Bool :=
  match options with
  | some o => o.withMcpcat
  | none => false

/-- `options?.withOtel` with optional chaining: `false` when options are
absent. -/
def optWithOtel (options : Option CliOptions) : Bool :=
  match options with
  | some o => o.withOtel
  | none => false

/-- JavaScript `toLowerCase()` on strings, embedded as a character-wise map
over the string's character list. -/
def strToLower (s : String) : String := String.mk (s.data.map Char.toLower)

/-- JavaScript `toUpperCase()` on strings, embedded as a character-wise map
over the string's character list. -/
def strToUpper (s : String) : String := String.mk (s.data.map Char.toUpper)

/-- One step of the JavaScript replacement
`name.replace(/[^a-zA-Z0-9]/g, _ )` with replacement character `_`:
characters outside `[a-zA-Z0-9]` become an underscore. -/
def sanitizeEnvChar (c : Char) : Char :=
  if (('a' ≤ c ∧ c ≤ 'z') ∨ ('A' ≤ c ∧ c ≤ 'Z') ∨ ('0' ≤ c ∧ c ≤ '9')) then c
  else '_'

/-- The inline oauth2 variable-name construction
`name.replace(/[^a-zA-Z0-9]/g, _ ).toUpperCase()` (without the
`OAUTH_TOKEN_` prefixing, which the caller adds). -/
def oauthVarName (name : String) : String :=
  strToUpper (String.mk (name.data.map sanitizeEnvChar))

/-- The text appended to `content` by one iteration of the
`for (const [name, schemeOrRef] of Object.entries(securitySchemes))` loop
body of `generateEnvExample`. -/
def schemeEntryLines (getEnvVarName : String → String → String)
    (name : String) : SecuritySchemeOrRef → String
  | .ref _ =>
    "# " ++ name ++ " - Referenced security scheme (reference not resolved)\n"
  | .scheme ty sub flows =>
    if ty = "apiKey" then
      getEnvVarName name "API_KEY" ++ "=your_api_key_here\n"
    else if ty = "http" then
      match sub with
      | some s =>
        if strToLower s = "bearer" then
          getEnvVarName name "BEARER_TOKEN" ++ "=your_bearer_token_here\n"
        else if strToLower s = "basic" then
          getEnvVarName name "BASIC_USERNAME" ++ "=your_username_here\n" ++
            getEnvVarName name "BASIC_PASSWORD" ++ "=your_password_here\n"
        else ""
      | none => ""
    else if ty = "oauth2" then
      "# OAuth2 authentication (" ++
          (match flows with
           | some keys => String.intercalate ", " keys
           | none => "unknown") ++ " flow)\n" ++
        "OAUTH_TOKEN_" ++ oauthVarName name ++ "=your_oauth_token_here\n"
    else ""

/-- `generateEnvExample(securitySchemes?, options?)`: builds the
`.env.example` text.  The mapping is a list of name/definition pairs in
object insertion order; `none` models an absent argument. -/
def generateEnvExample (getEnvVarName : String → String → String)
    (securitySchemes : Option (List (String × SecuritySchemeOrRef)))
    (options : Option CliOptions) : String :=
  let content := "# MCP Server Environment Variables\n# Copy this file to .env and fill in the values\n\n# Server configuration\nPORT=3000\nLOG_LEVEL=info\n\n"
  let content := content ++
    (match securitySchemes with
     | some schemes =>
       if 0 < schemes.length then
         "# API Authentication\n" ++
           String.join
             (schemes.map (fun entry => schemeEntryLines getEnvVarName entry.1 entry.2))
       else
         "# No API authentication required\n"
     | none => "# No API authentication required\n")
  let content := content ++
    (if optWithMcpcat options then
       "\n# MCPcat -- MCP product analytics and live debugging tools" ++
         "\n# Sign up and get your project ID for free at https://mcpcat.io\n" ++
         "MCPCAT_PROJECT_ID=proj_0000000  # Replace with your MCPcat project ID\n"
     else "")
  let content := content ++
    (if optWithOtel options then
       "\n# OpenTelemetry Configuration for logging and traces\n" ++
         "OTLP_ENDPOINT=http://localhost:4318/v1/traces  # OTLP collector endpoint\n"
     else "")
  content ++ "\n# Add any other environment variables your API might need\n"

/-- `generateDotenvConfig()`: returns the constant loader-stub source text.
Braces and single quotes of the emitted JavaScript are written with the
escapes `\x7b`, `\x7d`, `\x27`. -/
def generateDotenvConfig (_ : Unit) : String :=
  "\n/**\n * Load environment variables from .env file\n */\n" ++
    "import dotenv from \x27dotenv\x27;\n" ++
    "import path from \x27path\x27;\n" ++
    "import \x7b fileURLToPath \x7d from \x27url\x27;\n\n" ++
    "const __filename = fileURLToPath(import.meta.url);\n" ++
    "const __dirname = path.dirname(__filename);\n\n" ++
    "// Load environment variables from .env file\n" ++
    "const result = dotenv.config(\x7b path: path.resolve(__dirname, \x27../.env\x27) \x7d);\n\n" ++
    "if (result.error) \x7b\n" ++
    "  console.warn(\x27Warning: No .env file found or error loading .env file.\x27);\n" ++
    "  console.warn(\x27Using default environment variables.\x27);\n" ++
    "\x7d\n\n" ++
    "export const config = \x7b\n" ++
    "  port: process.env.PORT || \x273000\x27,\n" ++
    "  logLevel: process.env.LOG_LEVEL || \x27info\x27,\n" ++
    "\x7d;\n"

/-! Spec-side section names used in theorem statements. -/

/-- The fixed header section of the artifact. -/
def envHeaderText : String :=
  "# MCP Server Environment Variables\n# Copy this file to .env and fill in the values\n\n# Server configuration\nPORT=3000\nLOG_LEVEL=info\n\n"

/-- The comment line emitted when no security schemes are supplied. -/
def noAuthLine : String := "# No API authentication required\n"

/-- The section header line opening the authentication block. -/
def apiAuthHeaderLine : String := "# API Authentication\n"

/-- The optional analytics block controlled by `withMcpcat`. -/
def mcpcatBlockText : String :=
  "\n# MCPcat -- MCP product analytics and live debugging tools" ++
    "\n# Sign up and get your project ID for free at https://mcpcat.io\n" ++
    "MCPCAT_PROJECT_ID=proj_0000000  # Replace with your MCPcat project ID\n"

/-- The optional tracing block controlled by `withOtel`. -/
def otelBlockText : String :=
  "\n# OpenTelemetry Configuration for logging and traces\n" ++
    "OTLP_ENDPOINT=http://localhost:4318/v1/traces  # OTLP collector endpoint\n"

/-- The closing comment inviting the operator to add further variables. -/
def footerText : String :=
  "\n# Add any other environment variables your API might need\n"

/-- The authentication section of the artifact, as assembled from the
scheme mapping. -/
def authSectionText (getEnvVarName : String → String → String)
    (securitySchemes : Option (List (String × SecuritySchemeOrRef))) : String :=
  match securitySchemes with
  | some schemes =>
    if 0 < schemes.length then
      apiAuthHeaderLine ++
        String.join
          (schemes.map (fun entry => schemeEntryLines getEnvVarName entry.1 entry.2))
    else noAuthLine
  | none => noAuthLine

/-- A concrete resolver used for witnesses and counterexamples. -/
def demoResolver (name suffix : String) : String := name ++ "_" ++ suffix

/-- Boolean check that the character list `l` starts with the character
list `pat`. -/
def charsStartWith : List Char → List Char → Bool
  | _, [] => true
  | [], _ :: _ => false
  | a :: as, b :: bs => a == b && charsStartWith as bs

/-- Boolean check that `pat` occurs as a contiguous run inside `l`. -/
def charsContain : List Char → List Char → Bool
  | [], pat => pat.isEmpty
  | a :: rest, pat => charsStartWith (a :: rest) pat || charsContain rest pat

/-- Boolean substring check on strings. -/
def strContains (s pat : String) : Bool := charsContain s.data pat.data

example (s : String) : s ++ "" = s := by simp
example (s : String) : "" ++ s = s := by simp
example (s : String) : String.join [s] = s := by simp [String.join]
example (a b c : String) : a ++ (b ++ c) = a ++ b ++ c := by rw [String.append_assoc]
theorem generateEnvExample_sections (r : String → String → String)
    (schemes : Option (List (String × SecuritySchemeOrRef))) (opts : Option CliOptions) :
    generateEnvExample r schemes opts =
      envHeaderText ++ authSectionText r schemes ++
        (if optWithMcpcat opts then mcpcatBlockText else "") ++
        (if optWithOtel opts then otelBlockText else "") ++ footerText := rfl

theorem authSectionText_getD (r : String → String → String)
    (schemes : Option (List (String × SecuritySchemeOrRef))) :
    authSectionText r schemes =
      (if (schemes.getD []).isEmpty then noAuthLine
       else apiAuthHeaderLine ++
         String.join
           ((schemes.getD []).map (fun entry => schemeEntryLines r entry.1 entry.2))) := by
  cases schemes with
  | none => rfl
  | some l =>
    cases l with
    | nil => rfl
    | cons p t => simp [authSectionText]

theorem generateEnvExample_singleton (r : String → String → String)
    (name : String) (d : SecuritySchemeOrRef) :
    generateEnvExample r (some [(name, d)]) none =
      envHeaderText ++ apiAuthHeaderLine ++ schemeEntryLines r name d ++ footerText := by
  simp [generateEnvExample, envHeaderText, apiAuthHeaderLine, footerText, optWithMcpcat,
    optWithOtel, String.join, String.append_assoc]
  rw [← String.append_assoc]
  rfl

/-- C1 counterexample: for the non-empty mapping with the single unrecognized
scheme kind "custom", no entry yields any declaration, yet the artifact
contains the "# API Authentication" header and not the
"# No API authentication required" comment. -/
theorem auth_header_on_empty_declarations :
    schemeEntryLines demoResolver "foo" (.scheme "custom" none none) = "" ∧
    strContains
      (generateEnvExample demoResolver (some [("foo", .scheme "custom" none none)]) none)
      "# API Authentication" = true ∧
    strContains
      (generateEnvExample demoResolver (some [("foo", .scheme "custom" none none)]) none)
      "# No API authentication required" = false := by
  refine ⟨rfl, ?_, ?_⟩ <;> decide

/-- C1 amended: the artifact is the header, then the authentication section,
then the optional blocks and footer, where the authentication section is the
"# API Authentication" header followed by every entry's lines in insertion
order whenever the scheme mapping is present and non-empty, and the single
"# No API authentication required" comment otherwise. -/
theorem generateEnvExample_auth_branch (r : String → String → String)
    (schemes : Option (List (String × SecuritySchemeOrRef))) (opts : Option CliOptions) :
    generateEnvExample r schemes opts =
      envHeaderText ++
        (if (schemes.getD []).isEmpty then noAuthLine
         else apiAuthHeaderLine ++
           String.join
             ((schemes.getD []).map (fun entry => schemeEntryLines r entry.1 entry.2))) ++
        (if optWithMcpcat opts then mcpcatBlockText else "") ++
        (if optWithOtel opts then otelBlockText else "") ++ footerText := by
  rw [generateEnvExample_sections, authSectionText_getD]

/-- C2: an oauth2 entry contributes exactly one comment line naming the flow
keys joined by ", " (the literal "unknown" when flows are absent) followed by
one declaration OAUTH_TOKEN_<sanitized upper name>=your_oauth_token_here;
the name is built inline and the external resolver is never consulted. -/
theorem generateEnvExample_oauth2_entry (r r' : String → String → String)
    (name : String) (sub : Option String) (flows : Option (List String)) :
    schemeEntryLines r name (.scheme "oauth2" sub flows) =
      "# OAuth2 authentication (" ++
          (match flows with
           | some keys => String.intercalate ", " keys
           | none => "unknown") ++ " flow)\n" ++
        "OAUTH_TOKEN_" ++ oauthVarName name ++ "=your_oauth_token_here\n" ∧
    schemeEntryLines r name (.scheme "oauth2" sub flows) =
      schemeEntryLines r' name (.scheme "oauth2" sub flows) ∧
    generateEnvExample r (some [(name, .scheme "oauth2" sub flows)]) none =
      envHeaderText ++ apiAuthHeaderLine ++
        schemeEntryLines r name (.scheme "oauth2" sub flows) ++ footerText :=
  ⟨rfl, rfl, generateEnvExample_singleton r name (.scheme "oauth2" sub flows)⟩

/-- C3: an http entry contributes one BEARER_TOKEN declaration when its
subtype lowercases to "bearer", the BASIC_USERNAME then BASIC_PASSWORD pair
when it lowercases to "basic", and nothing at all for any other or missing
subtype, with the variable names obtained from the external resolver. -/
theorem generateEnvExample_http_entry (r : String → String → String)
    (name s : String) (flows : Option (List String)) :
    (strToLower s = "bearer" →
      schemeEntryLines r name (.scheme "http" (some s) flows) =
        r name "BEARER_TOKEN" ++ "=your_bearer_token_here\n") ∧
    (strToLower s = "basic" →
      schemeEntryLines r name (.scheme "http" (some s) flows) =
        r name "BASIC_USERNAME" ++ "=your_username_here\n" ++
          r name "BASIC_PASSWORD" ++ "=your_password_here\n") ∧
    (strToLower s ≠ "bearer" → strToLower s ≠ "basic" →
      schemeEntryLines r name (.scheme "http" (some s) flows) = "") ∧
    schemeEntryLines r name (.scheme "http" none flows) = "" := by
  refine ⟨fun h => ?_, fun h => ?_, fun h1 h2 => ?_, rfl⟩
  · simp [schemeEntryLines, h]
  · simp [schemeEntryLines, h]
  · simp [schemeEntryLines, h1, h2]

/-- C3 witness: concrete http entries with subtypes "Bearer", "BASIC" and
"digest" under the concrete resolver. -/
theorem generateEnvExample_http_entry_witness :
    schemeEntryLines demoResolver "auth" (.scheme "http" (some "Bearer") none) =
        demoResolver "auth" "BEARER_TOKEN" ++ "=your_bearer_token_here\n" ∧
    schemeEntryLines demoResolver "auth" (.scheme "http" (some "BASIC") none) =
        demoResolver "auth" "BASIC_USERNAME" ++ "=your_username_here\n" ++
          demoResolver "auth" "BASIC_PASSWORD" ++ "=your_password_here\n" ∧
    schemeEntryLines demoResolver "auth" (.scheme "http" (some "digest") none) = "" :=
  ⟨(generateEnvExample_http_entry demoResolver "auth" "Bearer" none).1 (by decide),
   (generateEnvExample_http_entry demoResolver "auth" "BASIC" none).2.1 (by decide),
   (generateEnvExample_http_entry demoResolver "auth" "digest" none).2.2.1
     (by decide) (by decide)⟩

/-- C4: an apiKey entry contributes exactly the declaration
<resolver(name, "API_KEY")>=your_api_key_here. -/
theorem generateEnvExample_apiKey_entry (r : String → String → String)
    (name : String) (sub : Option String) (flows : Option (List String)) :
    schemeEntryLines r name (.scheme "apiKey" sub flows) =
      r name "API_KEY" ++ "=your_api_key_here\n" ∧
    generateEnvExample r (some [(name, .scheme "apiKey" sub flows)]) none =
      envHeaderText ++ apiAuthHeaderLine ++
        (r name "API_KEY" ++ "=your_api_key_here\n") ++ footerText :=
  ⟨rfl, generateEnvExample_singleton r name (.scheme "apiKey" sub flows)⟩

/-- C5: the artifact is always header, authentication section, the analytics
block exactly when withMcpcat is set, the tracing block exactly when withOtel
is set (analytics before tracing), and the closing comment, in that order,
for every combination of inputs. -/
theorem generateEnvExample_section_order (r : String → String → String)
    (schemes : Option (List (String × SecuritySchemeOrRef))) (opts : Option CliOptions) :
    generateEnvExample r schemes opts =
      envHeaderText ++ authSectionText r schemes ++
        (if optWithMcpcat opts then mcpcatBlockText else "") ++
        (if optWithOtel opts then otelBlockText else "") ++ footerText := rfl

/-- C6: a Reference entry contributes exactly one comment line noting the
unresolved reference and no declaration; the output depends neither on the
reference target nor on the resolver. -/
theorem generateEnvExample_reference_entry (r : String → String → String)
    (name target : String) :
    schemeEntryLines r name (.ref target) =
      "# " ++ name ++ " - Referenced security scheme (reference not resolved)\n" ∧
    (∀ (r' : String → String → String) (target' : String),
      schemeEntryLines r name (.ref target) = schemeEntryLines r' name (.ref target')) ∧
    generateEnvExample r (some [(name, .ref target)]) none =
      envHeaderText ++ apiAuthHeaderLine ++
        ("# " ++ name ++ " - Referenced security scheme (reference not resolved)\n") ++
        footerText :=
  ⟨rfl, fun _ _ => rfl, generateEnvExample_singleton r name (.ref target)⟩

/-- C7: both generators are total functions: every input yields a string
ending in the closing comment, entries of unrecognized kind contribute no
output instead of failing, and the loader stub is produced unconditionally. -/
theorem generateEnvExample_no_failure (r : String → String → String)
    (schemes : Option (List (String × SecuritySchemeOrRef))) (opts : Option CliOptions)
    (name ty : String) (sub : Option String) (flows : Option (List String))
    (h1 : ty ≠ "apiKey") (h2 : ty ≠ "http") (h3 : ty ≠ "oauth2") :
    footerText.data <:+ (generateEnvExample r schemes opts).data ∧
    schemeEntryLines r name (.scheme ty sub flows) = "" ∧
    generateDotenvConfig () ≠ "" := by
  refine ⟨?_, ?_, by decide⟩
  · rw [generateEnvExample_sections]
    simp only [String.data_append]
    exact List.suffix_append _ _
  · simp [schemeEntryLines, h1, h2, h3]

/-- C7 witness: concrete instantiation with an absent mapping and the
unsupported scheme kind "mutualTLS". -/
theorem generateEnvExample_no_failure_witness :
    footerText.data <:+ (generateEnvExample demoResolver none none).data ∧
    schemeEntryLines demoResolver "x" (.scheme "mutualTLS" none none) = "" ∧
    generateDotenvConfig () ≠ "" :=
  generateEnvExample_no_failure demoResolver none none "x" "mutualTLS" none none
    (by decide) (by decide) (by decide)

/-- C8: generateEnvExample is deterministic: two calls whose scheme mappings
and options are equal and whose resolvers agree pointwise return the same
string. -/
theorem generateEnvExample_deterministic (r r' : String → String → String)
    (schemes schemes' : Option (List (String × SecuritySchemeOrRef)))
    (opts opts' : Option CliOptions)
    (hr : ∀ n sfx, r n sfx = r' n sfx) (hs : schemes = schemes') (ho : opts = opts') :
    generateEnvExample r schemes opts = generateEnvExample r' schemes' opts' := by
  subst hs; subst ho
  have hfun : r = r' := funext fun n => funext fun sfx => hr n sfx
  rw [hfun]

/-- C8 witness: two calls with the same concrete mapping and two
syntactically different but pointwise-equal resolvers agree. -/
theorem generateEnvExample_deterministic_witness :
    generateEnvExample demoResolver (some [("k", .scheme "apiKey" none none)]) none =
      generateEnvExample (fun n sfx => n ++ "_" ++ sfx)
        (some [("k", .scheme "apiKey" none none)]) none :=
  generateEnvExample_deterministic demoResolver (fun n sfx => n ++ "_" ++ sfx)
    (some [("k", .scheme "apiKey" none none)]) (some [("k", .scheme "apiKey" none none)])
    none none (fun _ _ => rfl) rfl rfl

set_option maxRecDepth 8192 in
/-- C9: generateDotenvConfig ignores its (unit) argument and returns one
constant text, which contains the port field with default "3000" and the
logLevel field with default "info". -/
theorem generateDotenvConfig_constant :
    (∀ u v : Unit, generateDotenvConfig u = generateDotenvConfig v) ∧
    strContains (generateDotenvConfig ())
      "port: process.env.PORT || \x273000\x27," = true ∧
    strContains (generateDotenvConfig ())
      "logLevel: process.env.LOG_LEVEL || \x27info\x27," = true :=
  ⟨fun _ _ => rfl, by decide, by decide⟩

/-- C10: an omitted options argument produces exactly the same artifact as
an options record with both toggles false. -/
theorem generateEnvExample_default_options (r : String → String → String)
    (schemes : Option (List (String × SecuritySchemeOrRef))) :
    generateEnvExample r schemes none =
      generateEnvExample r schemes (some ⟨false, false⟩) := rfl
